import Mathlib

/-!
# Verification of `scripts/generate-mock-data.py` (amber mock backup data generator)

This file gives a shallow embedding of the mock-data generator and proves or
refutes the specification claims about it.

Modelling conventions:

* The Python `random.Random` generator is modelled as an injectable stream of natural
  numbers (`RngState`): `randint a b` consumes one draw `v` and returns
  `a + v % (b - a + 1)`, which is faithful to the inclusive-range contract of
  `random.randint`; `choice l` consumes one draw and picks `l[v % len l]`.
  All theorems quantify over the stream, so they hold for every sequence the
  Mersenne Twister could produce.
* SQLite rows are modelled as Lean structures; the insertion order of rows is
  modelled as the order of a Lean list.
* Quantities the script computes with floating point (`growth_factor`,
  `interval`, the pre-clamp `changes_count`) are abstracted as explicit
  integer parameters/exact integer divisions where no claim depends on the
  exact rounding; each such spot is noted in the doc comment of the
  definition.
-/

namespace AmberGen

/-! ## Random-number model -/

/-- State of the injectable random source standing in for `random.Random(42)`:
an infinite stream `gen` of raw draws and a cursor `idx`. -/
structure RngState where
  gen : Nat → Nat
  idx : Nat

/-- Consume one raw draw from the stream. -/
def draw (s : RngState) : Nat × RngState :=
  (s.gen s.idx, ⟨s.gen, s.idx + 1⟩)

/-- Model of `rng.randint(lo, hi)`: one draw, mapped into the inclusive range
`[lo, hi]` (for `lo ≤ hi`; the script only calls it with `lo ≤ hi`). -/
def randint (lo hi : Nat) (s : RngState) : Nat × RngState :=
  let p := draw s
  (lo + p.1 % (hi + 1 - lo), p.2)

/-- Model of `rng.choice(l)`: one draw, indexing into `l`.  The script only
calls it on nonempty lists (`rng.choice` raises on `[]`); the default `dflt`
is returned in the unreachable empty case. -/
def choice {α : Type} (l : List α) (dflt : α) (s : RngState) : α × RngState :=
  let p := draw s
  (l.getD (p.1 % l.length) dflt, p.2)

/-! ## File templates (lines 40-94 of the script) -/

/-- One entry of the `*_TEMPLATES` catalogs:
`(extension, name_parts, min_size, max_size)`. -/
structure Template where
  ext : String
  names : List String
  min_size : Nat
  max_size : Nat
deriving DecidableEq

/-- Placeholder returned by `choice` on an empty template list (unreachable
for the catalogs of the script, which are nonempty). -/
def defaultTemplate : Template := ⟨"", [], 0, 0⟩

/-! ## `generate_file` (lines 377-399) -/

/-- The tuple returned by `generate_file` (without the constant
`"file"` discriminator, which is attached when the row is formed). -/
structure GenFile where
  path : String
  name : String
  directory : String
  size : Nat
  mtime : Int
  inode : Nat
deriving DecidableEq

/-- The `variant` list of line 385. -/
def VARIANTS : List String := ["", "_v2", "_final", "_draft", "_backup", "_old", "_new", ""]

/-- Model of `generate_file(templates, directories, base_timestamp, rng)`:
eight sequential draws (template, name base, directory, numeric suffix,
variant, size, mtime offset, inode), exactly in source order.
`mtime = base_timestamp // 1000 - mtime_offset` with
`mtime_offset = rng.randint(0, 60*24*60*60)`. -/
def generateFile (templates : List Template) (directories : List String)
    (base_timestamp : Nat) (s0 : RngState) : GenFile × RngState :=
  let c1 := choice templates defaultTemplate s0
  let c2 := choice c1.1.names "" c1.2
  let c3 := choice directories "" c2.2
  let c4 := randint 1 9999 c3.2
  let c5 := choice VARIANTS "" c4.2
  let name := c2.1 ++ c5.1 ++ "_" ++ toString c4.1 ++ "." ++ c1.1.ext
  let path := c3.1 ++ "/" ++ name
  let c6 := randint c1.1.min_size c1.1.max_size c5.2
  let c7 := randint 0 (60 * 24 * 60 * 60) c6.2
  let mtime : Int := ((base_timestamp / 1000 : Nat) : Int) - (c7.1 : Int)
  let c8 := randint 1000000 99999999 c7.2
  (⟨path, name, c3.1, c6.1, mtime, c8.1⟩, c8.2)

/-! ## Rows of the `files` table -/

/-- One row of the `files` table as inserted by `generate_snapshot`
(line 463/483); `id` is assigned by SQLite and not part of the insert. -/
structure RowData where
  snapshot_id : Nat
  path : String
  name : String
  parent_path : String
  size : Nat
  mtime : Int
  inode : Option Nat
  file_type : String
deriving DecidableEq

/-- The loop `for i in range(num_files)` of lines 450-473: generates
`num_files` file rows (in insertion order) and accumulates `total_size`.
The batching via `executemany` preserves order, so the returned list is the
database insertion order of the file rows. -/
def genFileRows (templates : List Template) (directories : List String)
    (root_path : String) (snapshot_id : Nat) (timestamp : Nat) :
    Nat → RngState → List RowData × Nat × RngState
  | 0, s => ([], 0, s)
  | n + 1, s =>
    let f := generateFile templates directories timestamp s
    let row : RowData :=
      ⟨snapshot_id, root_path ++ "/" ++ f.1.path, f.1.name, f.1.directory,
        f.1.size, f.1.mtime, some f.1.inode, "file"⟩
    let rest := genFileRows templates directories root_path snapshot_id timestamp n f.2
    (row :: rest.1, f.1.size + rest.2.1, rest.2.2)

/-- Model of `directory.rsplit("/", 1)` on the character list: `some (before, after)`
splits at the LAST slash; `none` when there is no slash. Structural
replacement for `String.splitOn` so that the kernel can evaluate it. -/
def splitLastSlash : List Char → Option (List Char × List Char)
  | [] => none
  | c :: cs =>
    match splitLastSlash cs with
    | some p => some (c :: p.1, p.2)
    | none => if c = '/' then some ([], cs) else none

/-- One directory row of lines 476-480:
`(snapshot_id, root_path/directory, dir_name, parent, 0, timestamp // 1000, None, "dir")`
where `dir_name`/`parent` come from `directory.rsplit("/", 1)` when the
directory contains a slash, else `(directory, "")`. -/
def dirRow (snapshot_id : Nat) (root_path : String) (timestamp : Nat)
    (directory : String) : RowData :=
  match splitLastSlash directory.data with
  | some p =>
    ⟨snapshot_id, root_path ++ "/" ++ directory, ⟨p.2⟩, ⟨p.1⟩, 0,
      ((timestamp / 1000 : Nat) : Int), none, "dir"⟩
  | none =>
    ⟨snapshot_id, root_path ++ "/" ++ directory, directory, "", 0,
      ((timestamp / 1000 : Nat) : Int), none, "dir"⟩

/-- Result of `generate_snapshot` for one snapshot: the `files` rows in
database insertion order, and the values written back to the snapshot row by
the `UPDATE snapshots SET file_count = ?, total_size = ?` of lines 488-491. -/
structure SnapshotResult where
  rows : List RowData
  file_count : Nat
  total_size : Nat
  rng : RngState

/-- Model of the database part of `generate_snapshot` (lines 436-491).

`num_files` abstracts `int(base_files * growth_factor)` of lines 429-433
(a floating-point expression; `base_files` consumes one `randint` draw).
No claim below depends on its value, so it is passed in explicitly and the
theorems quantify over it.

The rows are produced in insertion order: all file rows of the
`range(num_files)` loop first, then one `"dir"` row per catalog directory
(lines 476-485).  `file_count` is `num_files + len(directories)` and
`total_size` is the running sum of the generated file sizes (lines 488-491). -/
def generateSnapshot (templates : List Template) (directories : List String)
    (root_path : String) (snapshot_id : Nat) (timestamp : Nat)
    (num_files : Nat) (s : RngState) : SnapshotResult :=
  let fr := genFileRows templates directories root_path snapshot_id timestamp num_files s
  let dirRows := directories.map (dirRow snapshot_id root_path timestamp)
  { rows := fr.1 ++ dirRows
    file_count := num_files + directories.length
    total_size := fr.2.1
    rng := fr.2.2 }


/-! ## Catalogs (lines 40-264) -/

/-- The `DOCUMENT_TEMPLATES` catalog (transcribed verbatim from the script). -/
def DOCUMENT_TEMPLATES : List Template := [
  ⟨"pdf", ["report", "invoice", "contract", "proposal", "presentation", "manual", "guide", "whitepaper", "thesis", "resume", "specification", "datasheet", "brochure"], 50000, 15000000⟩,
  ⟨"docx", ["document", "letter", "memo", "notes", "draft", "review", "summary", "analysis", "plan", "outline", "meeting-notes", "agenda", "minutes"], 20000, 5000000⟩,
  ⟨"xlsx", ["spreadsheet", "budget", "forecast", "data", "analysis", "tracker", "schedule", "inventory", "ledger", "metrics", "expenses", "revenue", "quarterly"], 30000, 8000000⟩,
  ⟨"pptx", ["slides", "presentation", "deck", "pitch", "keynote", "overview", "summary", "roadmap", "strategy", "training", "onboarding", "quarterly-review"], 500000, 50000000⟩,
  ⟨"txt", ["notes", "readme", "log", "todo", "changelog", "license", "config", "manifest", "index", "list", "scratch", "ideas"], 100, 100000⟩,
  ⟨"md", ["README", "CHANGELOG", "CONTRIBUTING", "docs", "notes", "guide", "tutorial", "reference", "api", "spec", "architecture", "design"], 500, 50000⟩,
  ⟨"json", ["config", "package", "settings", "manifest", "data", "schema", "tsconfig", "eslint", "prettier", "babel", "workspace"], 200, 500000⟩,
  ⟨"yaml", ["config", "docker-compose", "ci", "workflow", "kubernetes", "helm", "ansible", "terraform", "cloudformation", "settings", "pipeline"], 200, 100000⟩,
  ⟨"csv", ["data", "export", "report", "analytics", "users", "transactions", "logs", "metrics", "inventory", "contacts"], 10000, 50000000⟩
]

/-- The `CODE_TEMPLATES` catalog (transcribed verbatim from the script). -/
def CODE_TEMPLATES : List Template := [
  ⟨"ts", ["index", "app", "utils", "helpers", "types", "constants", "hooks", "components", "services", "api", "store", "reducer", "actions", "middleware"], 500, 50000⟩,
  ⟨"tsx", ["App", "Component", "Page", "Layout", "Header", "Footer", "Sidebar", "Modal", "Button", "Form", "Input", "Table", "Card", "List", "Chart"], 1000, 80000⟩,
  ⟨"js", ["index", "main", "app", "utils", "config", "helpers", "constants", "setup", "bootstrap", "init", "server", "client", "worker"], 500, 50000⟩,
  ⟨"jsx", ["App", "Component", "Page", "Widget", "Card", "List", "Table", "Chart", "Form", "Input", "Dialog", "Tooltip", "Menu"], 1000, 60000⟩,
  ⟨"rs", ["main", "lib", "mod", "utils", "types", "error", "config", "service", "handler", "state", "commands", "models", "tests"], 1000, 100000⟩,
  ⟨"py", ["main", "app", "utils", "helpers", "models", "views", "tests", "config", "setup", "init", "api", "services", "tasks", "celery"], 500, 80000⟩,
  ⟨"go", ["main", "server", "handler", "model", "service", "utils", "config", "middleware", "router", "db", "api", "client"], 1000, 60000⟩,
  ⟨"css", ["styles", "main", "app", "components", "layout", "theme", "variables", "utilities", "reset", "global", "animations"], 500, 200000⟩,
  ⟨"scss", ["styles", "main", "variables", "mixins", "components", "layout", "theme", "utils", "base", "vendor", "abstracts"], 500, 150000⟩,
  ⟨"html", ["index", "about", "contact", "products", "services", "blog", "portfolio", "404", "landing", "template", "email"], 1000, 100000⟩,
  ⟨"sql", ["schema", "migrations", "seeds", "queries", "views", "procedures", "triggers", "indexes", "backup"], 500, 500000⟩,
  ⟨"sh", ["build", "deploy", "test", "setup", "install", "run", "start", "stop", "clean", "lint"], 200, 20000⟩,
  ⟨"swift", ["AppDelegate", "ViewController", "Model", "View", "Service", "Manager", "Helper", "Extension", "Protocol"], 1000, 80000⟩,
  ⟨"kt", ["MainActivity", "Application", "ViewModel", "Repository", "Service", "Adapter", "Fragment", "Dialog"], 1000, 60000⟩
]

/-- The `MEDIA_TEMPLATES` catalog (transcribed verbatim from the script). -/
def MEDIA_TEMPLATES : List Template := [
  ⟨"jpg", ["photo", "image", "screenshot", "scan", "capture", "portrait", "landscape", "product", "event", "travel", "family", "vacation", "wedding"], 100000, 15000000⟩,
  ⟨"jpeg", ["IMG", "DSC", "DCIM", "picture", "snapshot", "camera", "phone"], 100000, 12000000⟩,
  ⟨"png", ["screenshot", "icon", "logo", "graphic", "diagram", "chart", "banner", "thumbnail", "avatar", "sprite", "mockup", "wireframe"], 50000, 10000000⟩,
  ⟨"gif", ["animation", "banner", "icon", "reaction", "meme", "loader", "preview", "demo", "tutorial", "clip"], 20000, 5000000⟩,
  ⟨"webp", ["image", "photo", "thumbnail", "preview", "optimized", "compressed"], 30000, 8000000⟩,
  ⟨"svg", ["icon", "logo", "illustration", "graphic", "vector", "badge", "symbol", "chart"], 1000, 500000⟩,
  ⟨"mp4", ["video", "recording", "clip", "demo", "tutorial", "presentation", "interview", "webinar", "event", "screen-recording", "meeting"], 5000000, 500000000⟩,
  ⟨"mov", ["footage", "raw", "edit", "clip", "project", "export", "render", "final", "draft", "review", "iPhone"], 10000000, 800000000⟩,
  ⟨"avi", ["video", "recording", "capture", "archive", "legacy", "converted"], 10000000, 400000000⟩,
  ⟨"mkv", ["movie", "series", "episode", "documentary", "concert", "archive"], 100000000, 2000000000⟩,
  ⟨"mp3", ["audio", "podcast", "recording", "music", "voice", "interview", "meeting", "note", "memo", "track", "song"], 1000000, 20000000⟩,
  ⟨"wav", ["recording", "raw", "master", "sample", "loop", "effect", "voice", "instrument", "ambient", "foley"], 5000000, 100000000⟩,
  ⟨"flac", ["album", "track", "lossless", "master", "archive", "music"], 20000000, 80000000⟩,
  ⟨"aac", ["audio", "podcast", "audiobook", "voice", "compressed"], 500000, 15000000⟩,
  ⟨"psd", ["design", "mockup", "layout", "banner", "poster", "flyer", "logo", "icon", "template", "composition", "artwork"], 10000000, 200000000⟩,
  ⟨"ai", ["vector", "logo", "icon", "illustration", "graphic", "design", "artwork", "pattern", "template", "asset"], 5000000, 100000000⟩,
  ⟨"sketch", ["design", "mockup", "wireframe", "prototype", "component", "symbol", "screen", "flow", "system", "kit"], 5000000, 150000000⟩,
  ⟨"fig", ["design", "mockup", "prototype", "component", "system", "library", "template"], 1000000, 50000000⟩,
  ⟨"xd", ["design", "prototype", "wireframe", "mockup", "artboard", "component"], 2000000, 80000000⟩,
  ⟨"raw", ["photo", "image", "capture", "DSC", "IMG", "unedited"], 20000000, 50000000⟩,
  ⟨"cr2", ["photo", "canon", "raw", "capture"], 20000000, 40000000⟩,
  ⟨"nef", ["photo", "nikon", "raw", "capture"], 20000000, 45000000⟩,
  ⟨"dng", ["photo", "raw", "adobe", "converted"], 15000000, 35000000⟩
]

/-- The `DOCUMENT_DIRS` catalog (transcribed verbatim from the script). -/
def DOCUMENT_DIRS : List String := [
  "Documents",
  "Documents/Work",
  "Documents/Work/Projects",
  "Documents/Work/Projects/2022",
  "Documents/Work/Projects/2023",
  "Documents/Work/Projects/2024",
  "Documents/Work/Reports",
  "Documents/Work/Reports/Quarterly",
  "Documents/Work/Reports/Annual",
  "Documents/Work/Contracts",
  "Documents/Work/Proposals",
  "Documents/Work/Presentations",
  "Documents/Personal",
  "Documents/Personal/Finance",
  "Documents/Personal/Finance/Taxes",
  "Documents/Personal/Finance/Investments",
  "Documents/Personal/Legal",
  "Documents/Personal/Medical",
  "Documents/Personal/Insurance",
  "Desktop",
  "Desktop/Current",
  "Downloads",
  "Downloads/Archives",
  "Code",
  "Code/Projects",
  "Code/Projects/web-app",
  "Code/Projects/web-app/src",
  "Code/Projects/web-app/src/components",
  "Code/Projects/web-app/src/components/ui",
  "Code/Projects/web-app/src/hooks",
  "Code/Projects/web-app/src/utils",
  "Code/Projects/web-app/src/services",
  "Code/Projects/web-app/src/types",
  "Code/Projects/web-app/tests",
  "Code/Projects/api-server",
  "Code/Projects/api-server/src",
  "Code/Projects/api-server/src/routes",
  "Code/Projects/api-server/src/models",
  "Code/Projects/api-server/src/middleware",
  "Code/Projects/api-server/tests",
  "Code/Projects/mobile-app",
  "Code/Projects/mobile-app/src",
  "Code/Projects/mobile-app/src/screens",
  "Code/Projects/mobile-app/src/components",
  "Code/Projects/data-pipeline",
  "Code/Projects/data-pipeline/scripts",
  "Code/Projects/data-pipeline/notebooks",
  "Code/Libraries",
  "Code/Experiments",
  "Code/Sandbox",
  "Notes",
  "Notes/Meetings",
  "Notes/Meetings/2023",
  "Notes/Meetings/2024",
  "Notes/Ideas",
  "Notes/Research",
  "Notes/Journal",
  "Archive",
  "Archive/2021",
  "Archive/2022",
  "Archive/2023",
  "Backups",
  "Backups/Databases",
  "Backups/Configs",
  "Temp",
  ".config",
  ".ssh",
  ".aws"
]

/-- The `MEDIA_DIRS` catalog (transcribed verbatim from the script). -/
def MEDIA_DIRS : List String := [
  "Photos",
  "Photos/2021",
  "Photos/2021/01-January",
  "Photos/2021/02-February",
  "Photos/2021/03-March",
  "Photos/2021/Summer",
  "Photos/2021/Holidays",
  "Photos/2022",
  "Photos/2022/01-January",
  "Photos/2022/02-February",
  "Photos/2022/03-March",
  "Photos/2022/04-April",
  "Photos/2022/05-May",
  "Photos/2022/06-June",
  "Photos/2022/Summer",
  "Photos/2022/Fall",
  "Photos/2022/Holidays",
  "Photos/2022/Family",
  "Photos/2022/Travel",
  "Photos/2022/Travel/Europe",
  "Photos/2022/Travel/Asia",
  "Photos/2023",
  "Photos/2023/01-January",
  "Photos/2023/02-February",
  "Photos/2023/03-March",
  "Photos/2023/04-April",
  "Photos/2023/Spring",
  "Photos/2023/Summer",
  "Photos/2023/Fall",
  "Photos/2023/Family",
  "Photos/2023/Travel",
  "Photos/2023/Events",
  "Photos/2023/Events/Wedding",
  "Photos/2023/Events/Birthday",
  "Photos/2024",
  "Photos/2024/01-January",
  "Photos/2024/02-February",
  "Photos/2024/Events",
  "Photos/2024/Projects",
  "Photos/Screenshots",
  "Photos/Screenshots/2023",
  "Photos/Screenshots/2024",
  "Photos/Scans",
  "Photos/Scans/Documents",
  "Photos/Scans/Old-Photos",
  "Photos/Camera-Roll",
  "Photos/Edited",
  "Videos",
  "Videos/Raw",
  "Videos/Raw/2022",
  "Videos/Raw/2023",
  "Videos/Raw/2024",
  "Videos/Edited",
  "Videos/Edited/YouTube",
  "Videos/Edited/Personal",
  "Videos/Projects",
  "Videos/Projects/Documentary",
  "Videos/Projects/Tutorial",
  "Videos/Exports",
  "Videos/Screen-Recordings",
  "Videos/Screen-Recordings/Meetings",
  "Videos/Screen-Recordings/Tutorials",
  "Music",
  "Music/Library",
  "Music/Library/Albums",
  "Music/Library/Playlists",
  "Music/Podcasts",
  "Music/Podcasts/Tech",
  "Music/Podcasts/Business",
  "Music/Recordings",
  "Music/Recordings/Voice-Memos",
  "Music/Recordings/Interviews",
  "Design",
  "Design/Projects",
  "Design/Projects/Website-Redesign",
  "Design/Projects/Mobile-App",
  "Design/Projects/Branding",
  "Design/Assets",
  "Design/Assets/Icons",
  "Design/Assets/Illustrations",
  "Design/Assets/Stock-Photos",
  "Design/Templates",
  "Design/Exports",
  "Design/Exports/PNG",
  "Design/Exports/SVG",
  "Design/Exports/PDF",
  "Archive",
  "Archive/Old-Photos",
  "Archive/Old-Photos/2010s",
  "Archive/Old-Photos/2000s",
  "Archive/Old-Videos",
  "Archive/Legacy-Projects"
]


/-! ## Job configuration (lines 270-291) -/

/-- One entry of the `JOBS` list.  The `doc_weight`/`code_weight` keys of the
first job are set in the script but never read by any code path, so they are
not modelled. -/
structure JobCfg where
  id : String
  name : String
  source_path : String
  num_snapshots : Nat
  files_min : Nat
  files_max : Nat
  templates : List Template
  directories : List String

/-- The `JOBS` configuration list (lines 270-291). -/
def JOBS : List JobCfg := [
  ⟨"dev-documents-backup", "Documents Backup", "/Users/demo/Documents", 50,
    40000, 60000, DOCUMENT_TEMPLATES ++ CODE_TEMPLATES, DOCUMENT_DIRS⟩,
  ⟨"dev-media-archive", "Media Archive", "/Users/demo/Media", 35,
    25000, 45000, MEDIA_TEMPLATES, MEDIA_DIRS⟩]

/-! ## Output paths (lines 28-34, 424-426, 639-649) -/

/-- The `MOCK_DATA_DIR` output directory, relative to the repository root (`SCRIPT_DIR`). -/
def MOCK_DATA_DIR : String := "mock-data"

/-- Model of `DB_PATH = MOCK_DATA_DIR / "dev-index.db"` (line 31): the single output
database file.  `main` opens exactly one `sqlite3.connect(DB_PATH)` (line
641) and every insert of every job goes through that one connection. -/
def DB_PATH : String := MOCK_DATA_DIR ++ "/" ++ "dev-index.db"

/-! ## Snapshot entries for `jobs.json` (lines 493-537, 558-610) -/

/-- One element of `GENERATED_SNAPSHOTS[job_id]` (lines 529-537); these
dictionaries are emitted verbatim (after sorting) as the `snapshots` array of
the per-job entry in `jobs.json`. -/
structure SnapEntry where
  id : String
  timestamp : Nat
  sizeBytes : Nat
  fileCount : Nat
  changesCount : Int
  status : String
  path : String
deriving DecidableEq

/-- The clamp of line 527: `changes_count = max(50, min(changes_count, 50000))`. -/
def clampChanges (raw : Int) : Int := max 50 (min raw 50000)

/-- Builds the `GENERATED_SNAPSHOTS` entry of lines 529-537.  `changes_raw`
abstracts the floating-point expression
`int((base_growth / 1_000_000) * rng.uniform(0.8, 1.2))` of line 526 (an
arbitrary integer); the clamp of line 527 is applied on top of it.
`cumulative_size` is the per-job `CUMULATIVE_SIZES` figure and `file_count` the
`num_files + len(directories)` figure of line 533. -/
def mkSnapEntry (timestamp : Nat) (cumulative_size : Nat) (file_count : Nat)
    (changes_raw : Int) (root_path : String) : SnapEntry :=
  { id := toString timestamp
    timestamp := timestamp
    sizeBytes := cumulative_size
    fileCount := file_count
    changesCount := clampChanges changes_raw
    status := "Complete"
    path := root_path }

/-- The sort key relation of line 573:
`sorted(snapshots, key=lambda s: s["timestamp"], reverse=True)` orders an
entry `a` before `b` when `b.timestamp ≤ a.timestamp` (newest first). -/
def newerFirst (a b : SnapEntry) : Prop := b.timestamp ≤ a.timestamp

instance : DecidableRel newerFirst :=
  fun a b => inferInstanceAs (Decidable (b.timestamp ≤ a.timestamp))

instance : IsTotal SnapEntry newerFirst :=
  ⟨fun a b => le_total b.timestamp a.timestamp⟩

instance : IsTrans SnapEntry newerFirst :=
  ⟨fun _ _ _ h₁ h₂ => le_trans h₂ h₁⟩

/-- Model of line 573: the per-job `snapshots` array written to `jobs.json`
is the accumulated entry list sorted newest-first (a stable sort, like
the Python `sorted` builtin). -/
def sortJobSnapshots (l : List SnapEntry) : List SnapEntry :=
  l.insertionSort newerFirst

/-! ## `main`: snapshot timetable and database targets (lines 639-695) -/

/-- The `timedelta(days=730)` span in milliseconds: the exact length of
`now - two_years_ago` (line 660); `timedelta` arithmetic is exact. -/
def TWO_YEARS_MS : Int := 730 * 24 * 60 * 60 * 1000

/-- The timestamp of snapshot `i` of a job with `num_snapshots` snapshots,
computed by lines 677-683 from the wall-clock time `now_ms` (milliseconds
since epoch) sampled by `datetime.now()`:
`timestamp = int(two_years_ago_ms + (time_range / num_snapshots) * i)`.
The float arithmetic of `interval * i` is modelled as exact integer floor
division (all quantities are positive in every real run, where the two
agree up to the sub-millisecond float residue). -/
def snapshotTimestamp (now_ms : Nat) (num_snapshots i : Nat) : Int :=
  ((now_ms : Int) - TWO_YEARS_MS) + TWO_YEARS_MS * i / num_snapshots

/-- The full timetable produced by one run of `main` with the fixed seed 42:
for each job of `JOBS`, in order, the list of snapshot timestamps.  The only
run-to-run input is `now_ms` (the `datetime.now()` sample of line 659); the
random seed is the constant 42 (line 656), so it is not a parameter. -/
def mainSnapshotTimestamps (now_ms : Nat) : List (String × List Int) :=
  JOBS.map fun job =>
    (job.id, (List.range job.num_snapshots).map fun i =>
      snapshotTimestamp now_ms job.num_snapshots i)

/-- One run of `main`, as a relation between its wall-clock input and the
timetable it produces.  `main` has no other run-to-run varying input: the
random generator is seeded with the constant 42. -/
inductive GeneratorRun : Nat → List (String × List Int) → Prop
  | run (now_ms : Nat) : GeneratorRun now_ms (mainSnapshotTimestamps now_ms)

/-- The `INSERT INTO snapshots (job_id, timestamp, root_path, ...)` values of
line 436-439. -/
structure SnapshotsInsert where
  job_id : String
  timestamp : Int
  root_path : String
deriving DecidableEq

/-- Every `snapshots` row inserted by one run of `main`, tagged with the
database file it is written to.  All inserts go through the single
connection `sqlite3.connect(DB_PATH)` of line 641, so every tag is
`DB_PATH`.  `folder_name_of` abstracts `timestamp_to_folder_name` (line
402-405), which formats the timestamp through the local-time calendar — an
environment input irrelevant to every claim below; likewise `root_path` is
modelled relative to the repository root (the script calls `.resolve()`,
which prepends the absolute location of the checkout). -/
def mainSnapshotInserts (folder_name_of : Int → String) (now_ms : Nat) :
    List (String × SnapshotsInsert) :=
  JOBS.flatMap fun job =>
    (List.range job.num_snapshots).map fun i =>
      let ts := snapshotTimestamp now_ms job.num_snapshots i
      (DB_PATH,
        ⟨job.id, ts, MOCK_DATA_DIR ++ "/" ++ job.id ++ "/" ++ folder_name_of ts⟩)

/-! ## The `files` table and its FTS mirror (lines 336-374) -/

/-- A stored row of the `files` table, with its SQLite `id` (rowid). -/
structure FilesRec where
  id : Nat
  snapshot_id : Nat
  path : String
  name : String
  parent_path : String
  size : Nat
  mtime : Int
  inode : Option Nat
  file_type : String
deriving DecidableEq

/-- A row of the `files_fts` FTS5 mirror: `(rowid, name, path)`. -/
structure FtsEntry where
  rowid : Nat
  name : String
  path : String
deriving DecidableEq

/-- The database state relevant to full-text search: the `files` table and
the `files_fts` mirror. -/
structure DbState where
  files : List FilesRec
  fts : List FtsEntry

/-- The `(rowid, name, path)` triple the triggers mirror for a row. -/
def toFts (r : FilesRec) : FtsEntry := ⟨r.id, r.name, r.path⟩

/-- Line 358: `INSERT INTO files_fts(rowid, name, path) SELECT id, name,
path FROM files` — the one-pass population of the freshly created FTS table
after the bulk insert. -/
def ftsRebuild (db : DbState) : DbState :=
  { db with fts := db.files.map toFts }

/-- A later `INSERT` on `files` together with the `files_ai` trigger
(lines 361-363): the row is appended and its `(id, name, path)` mirrored. -/
def insertFileRow (db : DbState) (r : FilesRec) : DbState :=
  { files := db.files ++ [r]
    fts := db.fts ++ [toFts r] }

/-- A later `DELETE` of the row with rowid `i` together with the `files_ad`
trigger (lines 365-367): the FTS entry keyed by that rowid is removed. -/
def deleteFileRow (db : DbState) (i : Nat) : DbState :=
  { files := db.files.filter fun r => r.id != i
    fts := db.fts.filter fun e => e.rowid != i }

/-- A later `UPDATE` of the row with rowid `i` together with the `files_au`
trigger (lines 369-372): the old FTS entry is removed and the new
`(id, name, path)` inserted.  The trigger fires only when a row with rowid
`i` exists (hence the `any` guard). -/
def updateFileRow (db : DbState) (i : Nat) (new : FilesRec) : DbState :=
  { files := db.files.map fun r => if r.id = i then new else r
    fts := (db.fts.filter fun e => e.rowid != i) ++
      (if db.files.any fun r => r.id == i then [toFts new] else []) }

/-- The search-consistency contract: the FTS mirror holds exactly the
`(rowid, name, path)` triples of the `files` table. -/
def FtsSync (db : DbState) : Prop :=
  ∀ e : FtsEntry, e ∈ db.fts ↔ ∃ r ∈ db.files, toFts r = e

/-! ## Filesystem materializer (spec sections 4.4 and 8)

Modelled from the spec: the Filesystem Materializer — the component that
writes fresh content for changed files and hard-links unchanged files to the
previous snapshot — is not part of `src/`; the script there only creates
empty snapshot folders (`create_snapshot_folders`, lines 542-555) and draws
database `inode` values at random.  The definitions below follow spec
section 4.4: for every descriptor, if marked changed or no previous snapshot
exists, write fresh content; if unmarked and a previous snapshot exists,
hard-link from the materialized path of the previous snapshot (same inode), and
fall back to a fresh write if the previous file is absent. -/

/-- Modelled from the spec: the notion the generator has of one logical file
(spec section 3, `FileDescriptor`), restricted to the fields the
materializer touches. -/
structure Descriptor where
  relPath : String
  size : Nat
  content_seed : Nat
deriving DecidableEq

/-- Modelled from the spec: a materialized filesystem, as the storage
identity (inode) of each existing path. -/
def Fs : Type := String → Option Nat

/-- The filesystem with nothing materialized. -/
def emptyFs : Fs := fun _ => none

/-- Create (or overwrite) the file at `p` with storage identity `ino`. -/
def writePath (fs : Fs) (p : String) (ino : Nat) : Fs :=
  fun q => if q = p then some ino else fs q

/-- Modelled from the spec: materialize a single descriptor of one snapshot
(spec section 4.4).  `changed` is the mark set by the Snapshot Evolver; `fresh_ino`
is the storage identity a fresh write would allocate.  Unmarked descriptors
are hard-linked from the path they had in the previous snapshot — same inode — when that
file exists, with fall-back to a fresh write when it is absent. -/
def materializeOne (prev_root new_root : String) (prev : Fs) (changed : Bool)
    (fresh_ino : Nat) (d : Descriptor) (fs : Fs) : Fs :=
  if changed then
    writePath fs (new_root ++ "/" ++ d.relPath) fresh_ino
  else
    match prev (prev_root ++ "/" ++ d.relPath) with
    | some ino => writePath fs (new_root ++ "/" ++ d.relPath) ino
    | none => writePath fs (new_root ++ "/" ++ d.relPath) fresh_ino

/-- Modelled from the spec: materialize the descriptor list of one snapshot in
order, allocating fresh storage identities from the counter `n`. -/
def materializeSnapshot (prev_root new_root : String) (prev : Fs)
    (marks : Descriptor → Bool) :
    List Descriptor → Nat → Fs → Fs
  | [], _, fs => fs
  | d :: ds, n, fs =>
    materializeSnapshot prev_root new_root prev marks ds (n + 1)
      (materializeOne prev_root new_root prev (marks d) n d fs)


/-! ## Helper lemmas -/

/-- Applying `rng.choice` to a nonempty list returns an element of the list. -/
theorem choice_mem {α : Type} (l : List α) (dflt : α) (s : RngState) (h : l ≠ []) :
    (choice l dflt s).1 ∈ l := by
  have hl : 0 < l.length := List.length_pos.mpr h
  have hm : (draw s).1 % l.length < l.length := Nat.mod_lt _ hl
  simp only [choice, List.getD_eq_getElem?_getD, List.getElem?_eq_getElem hm,
    Option.getD_some]
  exact List.getElem_mem hm

/-- The fields of a `generate_file` result the claims rely on: its `mtime` is
`base_timestamp // 1000` minus a nonnegative offset, and its directory is
drawn from the catalog. -/
theorem generateFile_spec (templates : List Template) (directories : List String)
    (base_timestamp : Nat) (s : RngState) :
    (∃ off : Nat, (generateFile templates directories base_timestamp s).1.mtime
        = ((base_timestamp / 1000 : Nat) : Int) - (off : Int)) ∧
    (directories ≠ [] →
      (generateFile templates directories base_timestamp s).1.directory ∈ directories) := by
  constructor
  · simp only [generateFile]
    exact ⟨_, rfl⟩
  · intro h
    simp only [generateFile]
    exact choice_mem directories "" _ h

/-- The fields of a directory row (lines 476-480). -/
theorem dirRow_spec (snapshot_id : Nat) (root_path : String) (timestamp : Nat)
    (directory : String) :
    (dirRow snapshot_id root_path timestamp directory).file_type = "dir" ∧
    (dirRow snapshot_id root_path timestamp directory).snapshot_id = snapshot_id ∧
    (dirRow snapshot_id root_path timestamp directory).path = root_path ++ "/" ++ directory ∧
    (dirRow snapshot_id root_path timestamp directory).size = 0 ∧
    (dirRow snapshot_id root_path timestamp directory).mtime
      = ((timestamp / 1000 : Nat) : Int) := by
  unfold dirRow
  cases splitLastSlash directory.data <;> simp

/-- Invariants of the file-row loop of lines 450-473: it produces exactly
`num_files` rows, every row is a `"file"` row of this snapshot whose `mtime`
is `timestamp // 1000` minus a nonnegative offset and whose `parent_path` is
a catalog directory, and the accumulated `total_size` is the sum of the row
sizes. -/
theorem genFileRows_spec (templates : List Template) (directories : List String)
    (root_path : String) (snapshot_id : Nat) (timestamp : Nat) :
    ∀ (n : Nat) (s : RngState),
      (genFileRows templates directories root_path snapshot_id timestamp n s).1.length = n ∧
      (genFileRows templates directories root_path snapshot_id timestamp n s).2.1 =
        ((genFileRows templates directories root_path snapshot_id timestamp n s).1.map
          fun r => r.size).sum ∧
      ∀ r ∈ (genFileRows templates directories root_path snapshot_id timestamp n s).1,
        r.file_type = "file" ∧ r.snapshot_id = snapshot_id ∧
        (∃ off : Nat, r.mtime = ((timestamp / 1000 : Nat) : Int) - (off : Int)) ∧
        (directories ≠ [] → r.parent_path ∈ directories)
  | 0, s => by simp [genFileRows]
  | n + 1, s => by
    have ih := genFileRows_spec templates directories root_path snapshot_id timestamp n
      (generateFile templates directories timestamp s).2
    have hgf := generateFile_spec templates directories timestamp s
    simp only [genFileRows]
    refine ⟨by simp [ih.1], by simp [ih.2.1], ?_⟩
    intro r hr
    rcases List.mem_cons.mp hr with h | h
    · subst h
      exact ⟨rfl, rfl, hgf.1, fun hne => hgf.2 hne⟩
    · exact ih.2.2 r h

/-- Appending on the left is cancellative for `String`. -/
theorem string_append_cancel_left {a x y : String} (h : a ++ x = a ++ y) : x = y := by
  have hd := congrArg String.data h
  rw [String.data_append, String.data_append] at hd
  exact String.ext (List.append_cancel_left hd)


/-! ## Concrete inputs used by counterexamples and witnesses -/

/-- A concrete raw-draw stream (all zeros); any stream works, this one keeps
kernel evaluation cheap. -/
def zeroGen : Nat → Nat := fun _ => 0

/-- A concrete starting RNG state. -/
def rng0 : RngState := ⟨zeroGen, 0⟩

/-- A concrete snapshot `root_path` of the documents job. -/
def docRoot : String := "/Users/demo/amber/mock-data/dev-documents-backup/2024-01-01-000000"

/-- A default row for `List.getD`. -/
def dummyRow : RowData := ⟨0, "", "", "", 0, 0, none, ""⟩

/-- A concrete `generate_snapshot` run of the documents job (its real
template and directory catalogs), two file rows. -/
def resC1 : SnapshotResult :=
  generateSnapshot (DOCUMENT_TEMPLATES ++ CODE_TEMPLATES) DOCUMENT_DIRS docRoot
    1 1700000000000 2 rng0

/-- A concrete `generate_snapshot` run of the documents job, one file row. -/
def resC3 : SnapshotResult :=
  generateSnapshot (DOCUMENT_TEMPLATES ++ CODE_TEMPLATES) DOCUMENT_DIRS docRoot
    1 1700000000000 1 rng0

/-- A concrete `generate_snapshot` run of the documents job, one file row. -/
def resC4 : SnapshotResult :=
  generateSnapshot (DOCUMENT_TEMPLATES ++ CODE_TEMPLATES) DOCUMENT_DIRS docRoot
    1 1700000000000 1 rng0

/-- A small concrete `generate_snapshot` run (one template, one directory). -/
def resSmall : SnapshotResult :=
  generateSnapshot [⟨"pdf", ["report"], 50000, 15000000⟩] ["Docs"] docRoot
    1 1700000000000 1 rng0

/-! ## C1 — snapshot `file_count` / `total_size` aggregation -/

/-- C1 (counterexample): at a concrete run of `generate_snapshot` with the
catalogs of the documents job, the `file_count` written to the snapshot row
(`num_files + len(directories)`, line 490) differs from the number of
`files` rows with `file_type = "file"`: the claim as stated is false. -/
theorem c1_counterexample :
    resC1.file_count ≠
      (resC1.rows.filter fun r => r.file_type == "file").length := by
  decide

/-- C1 (amended): after the `UPDATE` of lines 488-491, `file_count` equals
the TOTAL number of `files` rows of the snapshot (file rows plus directory
rows), and `total_size` equals the sum of the sizes of the rows with
`file_type = "file"` (the directory rows contribute size 0 and are not
counted); the number of `file_type = "file"` rows is `num_files`, which is
what `file_count` exceeds by `len(directories)`. -/
theorem c1_file_count_total_size (templates : List Template)
    (directories : List String) (root_path : String)
    (snapshot_id timestamp num_files : Nat) (s : RngState) :
    (generateSnapshot templates directories root_path snapshot_id timestamp
        num_files s).file_count =
      (generateSnapshot templates directories root_path snapshot_id timestamp
        num_files s).rows.length ∧
    (generateSnapshot templates directories root_path snapshot_id timestamp
        num_files s).total_size =
      (((generateSnapshot templates directories root_path snapshot_id timestamp
        num_files s).rows.filter fun r => r.file_type == "file").map
          fun r => r.size).sum ∧
    ((generateSnapshot templates directories root_path snapshot_id timestamp
        num_files s).rows.filter fun r => r.file_type == "file").length
      = num_files := by
  have hs := genFileRows_spec templates directories root_path snapshot_id
    timestamp num_files s
  have hfil : ((genFileRows templates directories root_path snapshot_id
      timestamp num_files s).1.filter fun r => r.file_type == "file") =
      (genFileRows templates directories root_path snapshot_id timestamp
        num_files s).1 :=
    List.filter_eq_self.mpr fun r hr => by simp [(hs.2.2 r hr).1]
  have hdirs : (((directories.map (dirRow snapshot_id root_path
      timestamp)).filter fun r => r.file_type == "file")) = [] := by
    refine List.filter_eq_nil_iff.mpr fun r hr => ?_
    obtain ⟨d, _, rfl⟩ := List.mem_map.mp hr
    simp [(dirRow_spec snapshot_id root_path timestamp d).1]
  refine ⟨?_, ?_, ?_⟩
  · simp [generateSnapshot, List.length_append, hs.1]
  · simp only [generateSnapshot, List.filter_append, hfil, hdirs,
      List.append_nil]
    exact hs.2.1
  · simp only [generateSnapshot, List.filter_append, hfil, hdirs,
      List.append_nil]
    exact hs.1

/-! ## C3 — file row `parent_path` versus directory row `path` -/

/-- C3 (counterexample): at a concrete run with the catalogs of the
documents job, no directory row has a `path` (absolute, `root_path`-prefixed,
line 480) equal to the `parent_path` of a file row (catalog-relative, line 399):
the claim as stated is false. -/
theorem c3_counterexample :
    ¬ (∀ r ∈ resC3.rows, r.file_type = "file" →
      ∃ d ∈ resC3.rows, d.file_type = "dir" ∧ d.snapshot_id = r.snapshot_id ∧
        d.path = r.parent_path) := by
  decide

/-- C3 (amended): for every file row there is a directory row of the same
snapshot whose `path` equals `root_path ++ "/" ++` the file row
`parent_path` — the correspondence holds only after prefixing the snapshot
root, because file rows store the catalog-relative directory in
`parent_path` while directory rows store an absolute `path`. -/
theorem c3_parent_dir (templates : List Template) (directories : List String)
    (root_path : String) (snapshot_id timestamp num_files : Nat)
    (s : RngState) (hne : directories ≠ []) :
    ∀ r ∈ (generateSnapshot templates directories root_path snapshot_id
        timestamp num_files s).rows,
      r.file_type = "file" →
      ∃ d ∈ (generateSnapshot templates directories root_path snapshot_id
          timestamp num_files s).rows,
        d.file_type = "dir" ∧ d.snapshot_id = r.snapshot_id ∧
        d.path = root_path ++ "/" ++ r.parent_path := by
  intro r hr hf
  have hs := genFileRows_spec templates directories root_path snapshot_id
    timestamp num_files s
  simp only [generateSnapshot] at hr ⊢
  rcases List.mem_append.mp hr with h | h
  · obtain ⟨_, hsid, _, hpp⟩ := hs.2.2 r h
    obtain ⟨h1, h2, h3, _, _⟩ :=
      dirRow_spec snapshot_id root_path timestamp r.parent_path
    refine ⟨dirRow snapshot_id root_path timestamp r.parent_path,
      List.mem_append.mpr (.inr (List.mem_map.mpr
        ⟨r.parent_path, hpp hne, rfl⟩)), h1, ?_, h3⟩
    rw [h2, hsid]
  · obtain ⟨d, _, rfl⟩ := List.mem_map.mp h
    have h1 := (dirRow_spec snapshot_id root_path timestamp d).1
    rw [hf] at h1
    exact absurd h1 (by decide)

/-- C3 (witness for the amended theorem): the amended theorem applied to a
concrete run, at its first row. -/
theorem c3_parent_dir_witness :
    (["Docs"] : List String) ≠ [] ∧
    ∃ d ∈ resSmall.rows, d.file_type = "dir" ∧
      d.snapshot_id = (resSmall.rows.getD 0 dummyRow).snapshot_id ∧
      d.path = docRoot ++ "/" ++ (resSmall.rows.getD 0 dummyRow).parent_path :=
  ⟨by decide,
    c3_parent_dir [⟨"pdf", ["report"], 50000, 15000000⟩] ["Docs"] docRoot
      1 1700000000000 1 rng0 (by decide)
      (resSmall.rows.getD 0 dummyRow) (by decide) (by decide)⟩

/-! ## C4 — insertion order of directory and file rows -/

/-- C4 (counterexample): at a concrete run, it is not the case that every
directory row precedes every file row — the very first inserted row is a
file row and a directory row follows it: the claim as stated is false. -/
theorem c4_counterexample :
    ¬ (∀ i j : Fin resC4.rows.length,
      (resC4.rows.get i).file_type = "dir" →
      (resC4.rows.get j).file_type = "file" →
      (i : Nat) < (j : Nat)) := by
  decide

/-- C4 (amended): within every snapshot the insertion order is the reverse
of the claim: the rows are exactly a block of `num_files` file rows followed
by a block of `len(directories)` directory rows (lines 450-485: the
`range(num_files)` loop inserts file rows, directory rows are inserted
afterwards). -/
theorem c4_insertion_order (templates : List Template)
    (directories : List String) (root_path : String)
    (snapshot_id timestamp num_files : Nat) (s : RngState) :
    ∃ fileRows dirRows,
      (generateSnapshot templates directories root_path snapshot_id timestamp
          num_files s).rows = fileRows ++ dirRows ∧
      fileRows.length = num_files ∧
      (∀ r ∈ fileRows, r.file_type = "file") ∧
      (∀ r ∈ dirRows, r.file_type = "dir") ∧
      dirRows.length = directories.length := by
  have hs := genFileRows_spec templates directories root_path snapshot_id
    timestamp num_files s
  refine ⟨(genFileRows templates directories root_path snapshot_id timestamp
      num_files s).1,
    directories.map (dirRow snapshot_id root_path timestamp), rfl, hs.1,
    fun r hr => (hs.2.2 r hr).1, ?_, by simp⟩
  intro r hr
  obtain ⟨d, _, rfl⟩ := List.mem_map.mp hr
  exact (dirRow_spec snapshot_id root_path timestamp d).1

/-! ## C9 — `mtime` in seconds versus snapshot `timestamp` in milliseconds -/

/-- C9: the `mtime` of every `files` row is at most `timestamp // 1000`; file
rows are `timestamp // 1000` minus a nonnegative offset (lines 392-394) and
directory rows are exactly `timestamp // 1000` (line 480). -/
theorem c9_mtime_units (templates : List Template) (directories : List String)
    (root_path : String) (snapshot_id timestamp num_files : Nat)
    (s : RngState) :
    ∀ r ∈ (generateSnapshot templates directories root_path snapshot_id
        timestamp num_files s).rows,
      r.mtime ≤ ((timestamp / 1000 : Nat) : Int) ∧
      (r.file_type = "file" →
        ∃ off : Nat, r.mtime = ((timestamp / 1000 : Nat) : Int) - (off : Int)) ∧
      (r.file_type = "dir" → r.mtime = ((timestamp / 1000 : Nat) : Int)) := by
  intro r hr
  have hs := genFileRows_spec templates directories root_path snapshot_id
    timestamp num_files s
  simp only [generateSnapshot] at hr
  rcases List.mem_append.mp hr with h | h
  · obtain ⟨hft, _, ⟨off, hoff⟩, _⟩ := hs.2.2 r h
    refine ⟨by rw [hoff]; omega, fun _ => ⟨off, hoff⟩, fun hd => ?_⟩
    rw [hft] at hd
    exact absurd hd (by decide)
  · obtain ⟨d, _, rfl⟩ := List.mem_map.mp h
    obtain ⟨h1, _, _, _, h5⟩ := dirRow_spec snapshot_id root_path timestamp d
    refine ⟨le_of_eq h5, fun hf => ?_, fun _ => h5⟩
    rw [hf] at h1
    exact absurd h1 (by decide)

/-- C9 (witness): the theorem applied to a concrete run, at its first row
(a file row) and at its last row (a directory row). -/
theorem c9_mtime_units_witness :
    ((resSmall.rows.getD 0 dummyRow) ∈ resSmall.rows) ∧
    ((resSmall.rows.getD 0 dummyRow).mtime ≤ ((1700000000000 / 1000 : Nat) : Int) ∧
      ((resSmall.rows.getD 0 dummyRow).file_type = "file" →
        ∃ off : Nat, (resSmall.rows.getD 0 dummyRow).mtime
          = ((1700000000000 / 1000 : Nat) : Int) - (off : Int)) ∧
      ((resSmall.rows.getD 0 dummyRow).file_type = "dir" →
        (resSmall.rows.getD 0 dummyRow).mtime
          = ((1700000000000 / 1000 : Nat) : Int))) :=
  ⟨by decide,
    c9_mtime_units [⟨"pdf", ["report"], 50000, 15000000⟩] ["Docs"] docRoot
      1 1700000000000 1 rng0 (resSmall.rows.getD 0 dummyRow) (by decide)⟩


/-! ## C5 — order of the per-job snapshot list in `jobs.json` -/

/-- A concrete accumulated snapshot entry (earlier snapshot). -/
def entryA : SnapEntry := mkSnapEntry 1000 50000000000 10 100 "/dest/a"

/-- A concrete accumulated snapshot entry (later snapshot). -/
def entryB : SnapEntry := mkSnapEntry 2000 50000001000 10 100 "/dest/b"

/-- C5 (counterexample): the emitted snapshot list is NOT ascending by
timestamp — sorting two concrete entries (in the chronological order
`generate_snapshot` accumulates them) yields the later timestamp first,
because line 573 sorts with `reverse=True`. -/
theorem c5_counterexample :
    ¬ List.Pairwise (fun a b => a.timestamp ≤ b.timestamp)
      (sortJobSnapshots [entryA, entryB]) := by
  decide

/-- C5 (amended): the per-job snapshot list in `jobs.json` is sorted in
DESCENDING order of timestamp (newest first), the reverse of the claimed
ascending order. -/
theorem c5_sorted_newest_first (l : List SnapEntry) :
    List.Sorted newerFirst (sortJobSnapshots l) :=
  List.sorted_insertionSort newerFirst l

/-! ## C10 — `changesCount` clamp -/

/-- C10: every snapshot entry emitted into the per-job output has its
`changesCount` clamped into `[50, 50000]` (line 527); in particular it is
never 0, whatever the unclamped growth-derived figure was. -/
theorem c10_changes_clamped (timestamp cumulative_size file_count : Nat)
    (changes_raw : Int) (root_path : String) :
    50 ≤ (mkSnapEntry timestamp cumulative_size file_count changes_raw
        root_path).changesCount ∧
    (mkSnapEntry timestamp cumulative_size file_count changes_raw
        root_path).changesCount ≤ 50000 ∧
    (mkSnapEntry timestamp cumulative_size file_count changes_raw
        root_path).changesCount ≠ 0 := by
  simp only [mkSnapEntry, clampChanges]
  refine ⟨le_max_left _ _, max_le (by norm_num) (min_le_right _ _), ?_⟩
  have h := le_max_left (50 : Int) (min changes_raw 50000)
  omega

/-! ## C2 — run-to-run determinism -/

/-- C2 (counterexample): with the seed fixed (it is the constant 42), two
runs of `main` started one hour apart produce different snapshot
timestamps — and therefore different database rows and manifest fields,
since the timestamps flow into `snapshots.timestamp`, the entry `id`s and
`folderName`s verbatim.  The claim as stated (identical output for a fixed
seed) is false: `datetime.now()` (line 659) is a second, uncontrolled
input. -/
theorem c2_counterexample :
    mainSnapshotTimestamps 1760227200000 ≠ mainSnapshotTimestamps 1760230800000 := by
  decide

/-- C2 (amended): the generator is deterministic once BOTH the seed and the
wall-clock sample are fixed: two runs of `main` observing the same
`datetime.now()` value produce identical timetables (the seed is already
the constant 42, and the timetable is the only run-to-run varying part of
the output). -/
theorem c2_deterministic (now_ms : Nat) (o₁ o₂ : List (String × List Int))
    (h₁ : GeneratorRun now_ms o₁) (h₂ : GeneratorRun now_ms o₂) : o₁ = o₂ := by
  cases h₁
  cases h₂
  rfl

/-- C2 (witness): two runs at the same concrete wall-clock time agree. -/
theorem c2_deterministic_witness :
    GeneratorRun 1760227200000 (mainSnapshotTimestamps 1760227200000) ∧
    mainSnapshotTimestamps 1760227200000 = mainSnapshotTimestamps 1760227200000 :=
  ⟨GeneratorRun.run 1760227200000,
    c2_deterministic 1760227200000 _ _ (GeneratorRun.run 1760227200000)
      (GeneratorRun.run 1760227200000)⟩

/-! ## C6 — one database per job? -/

/-- A concrete folder-name formatter for the counterexample (the real one
formats through the local-time calendar, irrelevant here). -/
def constFolder : Int → String := fun _ => "2024-01-01-000000"

/-- A default element for `List.getD`. -/
def dummyIns : String × SnapshotsInsert := ("", ⟨"", 0, ""⟩)

/-- C6 (counterexample): in a concrete run, the first snapshot row of the
documents job and the first snapshot row of the media job are written to
the SAME database file — the claim that no two jobs have rows sharing a database
file is false. -/
theorem c6_counterexample :
    ((mainSnapshotInserts constFolder 1760227200000).getD 0 dummyIns).2.job_id ≠
      ((mainSnapshotInserts constFolder 1760227200000).getD 50 dummyIns).2.job_id ∧
    ((mainSnapshotInserts constFolder 1760227200000).getD 0 dummyIns).1 =
      ((mainSnapshotInserts constFolder 1760227200000).getD 50 dummyIns).1 := by
  decide

/-- C6 (amended): there is exactly one database file: every snapshot row of
every job is written to the single `DB_PATH` (`mock-data/dev-index.db`)
through the one connection of line 641, and rows of different jobs are
distinguished by the `job_id` column, not by separate files — both jobs
contribute rows to that shared file. -/
theorem c6_single_database (folder_name_of : Int → String) (now_ms : Nat) :
    ((mainSnapshotInserts folder_name_of now_ms).all
      fun p => p.1 == DB_PATH) = true ∧
    (∃ p ∈ mainSnapshotInserts folder_name_of now_ms,
      ∃ q ∈ mainSnapshotInserts folder_name_of now_ms,
        p.2.job_id = "dev-documents-backup" ∧
        q.2.job_id = "dev-media-archive" ∧ p.1 = q.1) := by
  constructor
  · rw [List.all_eq_true]
    intro p hp
    obtain ⟨job, _, hp2⟩ := List.mem_flatMap.mp hp
    obtain ⟨i, _, rfl⟩ := List.mem_map.mp hp2
    simp
  · refine ⟨_, List.mem_flatMap.mpr ⟨_, List.mem_cons_self _ _,
        List.mem_map.mpr ⟨0, List.mem_range.mpr (by norm_num), rfl⟩⟩,
      _, List.mem_flatMap.mpr ⟨_, List.mem_cons_of_mem _
          (List.mem_cons_self _ _),
        List.mem_map.mpr ⟨0, List.mem_range.mpr (by norm_num), rfl⟩⟩,
      rfl, rfl, rfl⟩


/-! ## C7 — hard-link correctness of the materializer (spec-modelled) -/

/-- Paths not materialized by a snapshot keep their prior state:
`materializeSnapshot` writes only at `new_root ++ "/" ++ relPath` of its
descriptors. -/
theorem materializeSnapshot_untouched (prev_root new_root : String) (prev : Fs)
    (marks : Descriptor → Bool) :
    ∀ (ds : List Descriptor) (n : Nat) (fs : Fs) (p : String),
      (∀ e ∈ ds, new_root ++ "/" ++ e.relPath ≠ p) →
      materializeSnapshot prev_root new_root prev marks ds n fs p = fs p
  | [], _, _, _, _ => rfl
  | d :: ds, n, fs, p, h => by
    have hd : p ≠ new_root ++ "/" ++ d.relPath :=
      fun hh => h d (List.mem_cons_self d ds) hh.symm
    have ih := materializeSnapshot_untouched prev_root new_root prev marks ds
      (n + 1) (materializeOne prev_root new_root prev (marks d) n d fs) p
      (fun e he => h e (List.mem_cons_of_mem d he))
    rw [materializeSnapshot, ih]
    cases hm : marks d
    · cases hp : prev (prev_root ++ "/" ++ d.relPath) <;>
        simp [materializeOne, writePath, hm, hp, hd]
    · simp [materializeOne, writePath, hm, hd]

/-- C7: for a file left unmarked ("unchanged") in a snapshot with a previous
snapshot, whose previous materialized file exists with storage identity
`ino`, the newly materialized file has the SAME storage identity `ino`
(it is hard-linked, not rewritten), provided the descriptors of the snapshot
have distinct relative paths (descriptors are unique per population,
spec section 3). -/
theorem c7_hard_link (prev_root new_root : String) (prev : Fs)
    (marks : Descriptor → Bool) (d : Descriptor) (ino : Nat) :
    ∀ (ds : List Descriptor) (n : Nat) (fs : Fs),
      (ds.map Descriptor.relPath).Nodup → d ∈ ds → marks d = false →
      prev (prev_root ++ "/" ++ d.relPath) = some ino →
      materializeSnapshot prev_root new_root prev marks ds n fs
        (new_root ++ "/" ++ d.relPath) = some ino
  | [], _, _, _, hd, _, _ => absurd hd (List.not_mem_nil d)
  | a :: ds, n, fs, hnd, hd, hm, hp => by
    rcases List.mem_cons.mp hd with rfl | hmem
    · have hnotin : d.relPath ∉ ds.map Descriptor.relPath := by
        have := List.nodup_cons.mp hnd
        simpa using this.1
      rw [materializeSnapshot,
        materializeSnapshot_untouched prev_root new_root prev marks ds (n + 1)
          _ _ (fun e he heq => ?_)]
      · simp [materializeOne, hm, hp, writePath]
      · have h2 : e.relPath = d.relPath := string_append_cancel_left heq
        exact hnotin (List.mem_map.mpr ⟨e, he, h2⟩)
    · have hnd' : (ds.map Descriptor.relPath).Nodup := by
        have := List.nodup_cons.mp hnd
        simpa using this.2
      rw [materializeSnapshot]
      exact c7_hard_link prev_root new_root prev marks d ino ds (n + 1)
        (materializeOne prev_root new_root prev (marks a) n a fs) hnd' hmem hm hp

/-- A concrete descriptor for the C7 witness. -/
def descA : Descriptor := ⟨"Docs/report_1.pdf", 50000, 7⟩

/-- A concrete mark assignment: nothing changed. -/
def marksNone : Descriptor → Bool := fun _ => false

/-- A concrete previous-snapshot filesystem: the counterpart of `descA`
exists with inode 4242. -/
def prevFs : Fs :=
  fun p => if p = "/dest/2024-01-01-000000/Docs/report_1.pdf" then some 4242 else none

/-- C7 (witness): the theorem applied to a concrete one-descriptor snapshot:
the unchanged file keeps inode 4242 across the two snapshots. -/
theorem c7_hard_link_witness :
    (([descA].map Descriptor.relPath).Nodup ∧ descA ∈ [descA] ∧
      marksNone descA = false ∧
      prevFs ("/dest/2024-01-01-000000" ++ "/" ++ descA.relPath) = some 4242) ∧
    materializeSnapshot "/dest/2024-01-01-000000" "/dest/2024-01-08-000000"
        prevFs marksNone [descA] 0 emptyFs
        ("/dest/2024-01-08-000000" ++ "/" ++ descA.relPath) = some 4242 :=
  ⟨⟨by decide, by decide, rfl, by decide⟩,
    c7_hard_link "/dest/2024-01-01-000000" "/dest/2024-01-08-000000" prevFs
      marksNone descA 4242 [descA] 0 emptyFs (by decide) (by decide) rfl
      (by decide)⟩


/-! ## C8 — full-text search mirror consistency -/

/-- C8: (a) after the bulk insert, the one-pass population of line 358
establishes the search-consistency contract `FtsSync` — the FTS mirror
holds exactly the `(rowid, name, path)` triples of the `files` table — for
ANY contents of `files`; and (b) each of the three triggers of lines
361-372 preserves `FtsSync` across a subsequent insert, delete or update. -/
theorem c8_fts_sync (db : DbState) (r : FilesRec) (i : Nat) (new : FilesRec) :
    FtsSync (ftsRebuild db) ∧
    (FtsSync db → FtsSync (insertFileRow db r)) ∧
    (FtsSync db → FtsSync (deleteFileRow db i)) ∧
    (FtsSync db → FtsSync (updateFileRow db i new)) := by
  refine ⟨?_, ?_, ?_, ?_⟩
  · intro e
    simp [ftsRebuild, List.mem_map]
  · intro h e
    simp only [insertFileRow, FtsSync, List.mem_append, List.mem_singleton]
    constructor
    · rintro (he | rfl)
      · obtain ⟨x, hx, hxe⟩ := (h e).mp he
        exact ⟨x, .inl hx, hxe⟩
      · exact ⟨r, .inr rfl, rfl⟩
    · rintro ⟨x, hx | rfl, hxe⟩
      · exact .inl ((h e).mpr ⟨x, hx, hxe⟩)
      · exact .inr hxe.symm
  · intro h e
    simp only [deleteFileRow, FtsSync, List.mem_filter, bne_iff_ne]
    constructor
    · rintro ⟨he, hne⟩
      obtain ⟨x, hx, hxe⟩ := (h e).mp he
      refine ⟨x, ⟨hx, ?_⟩, hxe⟩
      intro hxi
      apply hne
      rw [← hxe]
      exact hxi
    · rintro ⟨x, ⟨hx, hxi⟩, hxe⟩
      refine ⟨(h e).mpr ⟨x, hx, hxe⟩, ?_⟩
      rw [← hxe]
      exact hxi
  · intro h e
    simp only [updateFileRow, FtsSync, List.mem_append, List.mem_filter,
      List.mem_map, bne_iff_ne]
    cases hany : db.files.any fun x => x.id == i
    · have hno : ∀ x ∈ db.files, x.id ≠ i := by
        intro x hx
        have := List.any_eq_false.mp hany x hx
        simpa using this
      rw [if_neg (show ¬(false = true) by simp)]
      constructor
      · rintro (⟨he, _⟩ | hfalse)
        · obtain ⟨x, hx, hxe⟩ := (h e).mp he
          exact ⟨x, ⟨x, hx, if_neg (hno x hx)⟩, hxe⟩
        · exact absurd hfalse (List.not_mem_nil e)
      · rintro ⟨x, ⟨y, hy, hmap⟩, hxe⟩
        rw [if_neg (hno y hy)] at hmap
        subst hmap
        refine .inl ⟨(h e).mpr ⟨y, hy, hxe⟩, ?_⟩
        rw [← hxe]
        exact hno y hy
    · obtain ⟨w, hw, hwid⟩ := List.any_eq_true.mp hany
      rw [beq_iff_eq] at hwid
      rw [if_pos (rfl : true = true)]
      simp only [List.mem_singleton]
      constructor
      · rintro (⟨he, hne⟩ | rfl)
        · obtain ⟨x, hx, hxe⟩ := (h e).mp he
          have hxi : x.id ≠ i := by
            intro hxi
            apply hne
            rw [← hxe]
            exact hxi
          exact ⟨x, ⟨x, hx, if_neg hxi⟩, hxe⟩
        · exact ⟨new, ⟨w, hw, if_pos hwid⟩, rfl⟩
      · rintro ⟨x, ⟨y, hy, hmap⟩, hxe⟩
        by_cases hyi : y.id = i
        · rw [if_pos hyi] at hmap
          subst hmap
          exact .inr hxe.symm
        · rw [if_neg hyi] at hmap
          subst hmap
          refine .inl ⟨(h e).mpr ⟨y, hy, hxe⟩, ?_⟩
          rw [← hxe]
          exact hyi

/-- A concrete stored `files` row for the C8 witness. -/
def recA : FilesRec :=
  ⟨1, 1, "/dest/Docs/report_1.pdf", "report_1.pdf", "Docs", 50000, 1699000000,
    some 4242, "file"⟩

/-- A concrete replacement row for the C8 witness. -/
def recB : FilesRec :=
  ⟨1, 1, "/dest/Docs/report_2.pdf", "report_2.pdf", "Docs", 60000, 1699000100,
    some 4243, "file"⟩

/-- C8 (witness): the theorem applied to the concrete one-row state
`{files := [recA], fts := [toFts recA]}` — the rebuild establishes the
contract and insert/delete/update preserve it there. -/
theorem c8_fts_sync_witness :
    FtsSync ⟨[recA], [toFts recA]⟩ ∧
    FtsSync (ftsRebuild ⟨[recA], [toFts recA]⟩) ∧
    FtsSync (insertFileRow ⟨[recA], [toFts recA]⟩ recB) ∧
    FtsSync (deleteFileRow ⟨[recA], [toFts recA]⟩ 1) ∧
    FtsSync (updateFileRow ⟨[recA], [toFts recA]⟩ 1 recB) := by
  have h0 : FtsSync ⟨[recA], [toFts recA]⟩ := by
    intro e
    simp [eq_comm]
  have h := c8_fts_sync ⟨[recA], [toFts recA]⟩ recB 1 recB
  exact ⟨h0, h.1, h.2.1 h0, h.2.2.1 h0, h.2.2.2 h0⟩

end AmberGen
